import Mathlib

/-!
Verification development for the TrustLend loan-decision repository.

The frontend sources (`front/types.ts`, `front/App.tsx`,
`front/components/DataIntakeForm.tsx`, `front/services/geminiService.ts`)
are embedded shallowly below: React state updates become pure state-passing
functions, the asynchronous Gemini call becomes a function of the external
response (`Except Unit LLMResponse`, where `Except.error` stands for a
network failure, an API error, or a JSON parse failure), and JavaScript
numbers become `Rat`.  The backend verification engine
(`documents_verification.py`, `CrossValidationEngine`, `IDCardVerifier`)
is not in the repository snapshot; those parts are modelled from the spec
and are marked as such in their doc comments.
-/

namespace TrustLend

/-! ## types.ts -/

inductive LoanStep
  | INTAKE
  | ANALYSIS
  | DECISION
deriving DecidableEq, Repr

namespace DecisionResult

def PENDING : String := "PENDING"

def APPROVED : String := "APPROVED"

def REJECTED : String := "REJECTED"

def FRAUD : String := "FRAUD"

end DecisionResult

structure Applicant where
  fullName : String
  cinId : String
  monthlyIncome : Rat
  hasProperty : Bool
deriving DecidableEq, Repr

structure Loan where
  purpose : String
  amount : Rat
  durationMonths : Int
deriving DecidableEq, Repr

structure Documents where
  cin : Bool
  payslip : Bool
  incomeTax : Bool
  bankStatements : Bool
  propertyTitle : Bool
deriving DecidableEq, Repr

/-- The `analysis` record of a `LoanApplication`.  The runtime object merged
by `handleAnalysisComplete` additionally carries the `explanation` key that
the spread `{...application.analysis, ...result}` copies from the service
result (the declared TS type has only `aiExplanation`); it is modelled as an
`Option` that is `none` until such a merge happens. -/
structure Analysis where
  riskScore : Rat
  fraudProbability : Rat
  similarityScore : Rat
  aiExplanation : String
  possibleImprovements : Option (List String)
  status : String
  explanation : Option String
deriving DecidableEq, Repr

structure LoanApplication where
  id : String
  applicant : Applicant
  loan : Loan
  documents : Documents
  analysis : Analysis
  createdAt : String
deriving DecidableEq, Repr

/-! ## services/geminiService.ts -/

/-- The JSON object parsed from the Gemini response text.  Every field is
optional: JavaScript property access yields `undefined` for missing keys
(the empty response text is replaced by the literal `"{}"` before parsing,
which produces exactly the all-`none` record). -/
structure LLMResponse where
  status : Option String
  riskScore : Option Rat
  fraudProbability : Option Rat
  explanation : Option String
  possibleImprovements : Option (List String)
deriving DecidableEq, Repr

/-- The record resolved by `getLoanDecisionAnalysis`. -/
structure AnalysisResult where
  explanation : String
  status : String
  riskScore : Rat
  fraudProbability : Rat
  possibleImprovements : List String
deriving DecidableEq, Repr

def defaultExplanation : String :=
  "The loan application was processed by the TrustLend AI core. Based on the financial metrics provided, including income and property status, alongside the flags raised during the document intake layer (specifically regarding the tax declaration validity), the system has reached a definitive decision to maintain the security and solvency standards of the bank."

def errorExplanation : String :=
  "Analysis engine failed to generate a live response. Manual review is required due to the systemic rejection of the applicant\x27s tax documentation and high debt-to-income calculated variance."

def errorImprovements : List String :=
  ["Retry application with certified documents", "Contact branch manager for manual appraisal"]

/-- `getLoanDecisionAnalysis` from `services/geminiService.ts`.  `resp` is
the outcome of the external Gemini call: `Except.ok data` is a response
whose text parsed as JSON (missing keys are `none`), `Except.error ()` is
an unreachable service, an API error, or a malformed (unparseable)
response, all of which land in the `catch` block.  JavaScript `||` treats
the empty string as falsy, `??` only replaces `null`/`undefined`; both are
reproduced below.  The whole body is wrapped in `try`/`catch`, so the
returned promise always resolves: the result is always `Except.ok`. -/
def getLoanDecisionAnalysis (app : LoanApplication) (resp : Except Unit LLMResponse) :
    Except Unit AnalysisResult :=
  match resp with
  | Except.ok data =>
      Except.ok
        { status :=
            match data.status with
            | some s => if s = "" then DecisionResult.REJECTED else s
            | none => DecisionResult.REJECTED
          riskScore := data.riskScore.getD 50
          fraudProbability := data.fraudProbability.getD 5
          explanation :=
            match data.explanation with
            | some e => if e = "" then defaultExplanation else e
            | none => defaultExplanation
          possibleImprovements := data.possibleImprovements.getD [] }
  | Except.error _ =>
      Except.ok
        { status := DecisionResult.REJECTED
          riskScore := 99
          fraudProbability := 0
          explanation := errorExplanation
          possibleImprovements := errorImprovements }

/-! ## App.tsx -/

structure IntakeData where
  applicant : Applicant
  loan : Loan
  documents : Documents
deriving DecidableEq, Repr

structure AppState where
  step : LoanStep
  application : Option LoanApplication
deriving DecidableEq, Repr

def initAppState : AppState := { step := LoanStep.INTAKE, application := none }

/-- The `analysis` sub-record of the `initialApp` built in
`handleIntakeComplete`. -/
def initialAnalysis : Analysis :=
  { riskScore := 0
    fraudProbability := 0
    similarityScore := 0
    aiExplanation := ""
    possibleImprovements := none
    status := DecisionResult.PENDING
    explanation := none }

/-- `handleIntakeComplete` from `App.tsx`; the random id and the timestamp
are passed in as parameters. -/
def handleIntakeComplete (st : AppState) (data : IntakeData) (newId createdAt : String) :
    AppState :=
  { step := LoanStep.ANALYSIS
    application := some
      { id := newId
        applicant := data.applicant
        loan := data.loan
        documents := data.documents
        analysis := initialAnalysis
        createdAt := createdAt } }

/-- The update `setApplication({...application, analysis: {...application.analysis, ...result}})`
performed by `handleAnalysisComplete`: a fresh `LoanApplication` whose
`analysis` merges in the service result; all other fields are carried over
from the spread of the old object. -/
def applyAnalysis (app : LoanApplication) (result : AnalysisResult) : LoanApplication :=
  { app with
      analysis :=
        { app.analysis with
            riskScore := result.riskScore
            fraudProbability := result.fraudProbability
            status := result.status
            possibleImprovements := some result.possibleImprovements
            explanation := some result.explanation } }

/-- `handleAnalysisComplete` from `App.tsx`.  `outcome` is what awaiting
`getLoanDecisionAnalysis(application)` yields: `Except.ok` in the `try`
branch, `Except.error` in the `catch` branch.  Both branches end with
`setStep(LoanStep.DECISION)`; the guard `if (!application) return;` leaves
the state unchanged when no application exists. -/
def handleAnalysisComplete (st : AppState) (outcome : Except Unit AnalysisResult) : AppState :=
  match st.application with
  | none => st
  | some app =>
      match outcome with
      | Except.ok result =>
          { step := LoanStep.DECISION, application := some (applyAnalysis app result) }
      | Except.error _ =>
          { step := LoanStep.DECISION, application := some app }

/-- `resetFlow` from `App.tsx`. -/
def resetFlow (st : AppState) : AppState := initAppState

/-- The user-visible events that drive the `App` component state. -/
inductive AppEvent
  | intakeComplete (data : IntakeData) (newId createdAt : String)
  | analysisComplete (outcome : Except Unit AnalysisResult)
  | reset

def appStep (st : AppState) (e : AppEvent) : AppState :=
  match e with
  | AppEvent.intakeComplete data newId createdAt => handleIntakeComplete st data newId createdAt
  | AppEvent.analysisComplete outcome => handleAnalysisComplete st outcome
  | AppEvent.reset => resetFlow st

def runApp (events : List AppEvent) : AppState := events.foldl appStep initAppState

/-! ## components/DataIntakeForm.tsx -/

inductive DocStatus
  | idle
  | processing
  | success
  | rejected
deriving DecidableEq, Repr

structure DocItem where
  id : String
  label : String
  desc : String
  status : DocStatus
  error : Option String
deriving DecidableEq, Repr

/-- The five fixed keys of the `docs` record. -/
inductive DocSlot
  | cin
  | payslip
  | incomeTax
  | bankStatements
  | propertyTitle
deriving DecidableEq, Repr

def DocSlot.key : DocSlot → String
  | DocSlot.cin => "cin"
  | DocSlot.payslip => "payslip"
  | DocSlot.incomeTax => "incomeTax"
  | DocSlot.bankStatements => "bankStatements"
  | DocSlot.propertyTitle => "propertyTitle"

structure Docs where
  cin : DocItem
  payslip : DocItem
  incomeTax : DocItem
  bankStatements : DocItem
  propertyTitle : DocItem
deriving DecidableEq, Repr

def Docs.get (d : Docs) : DocSlot → DocItem
  | DocSlot.cin => d.cin
  | DocSlot.payslip => d.payslip
  | DocSlot.incomeTax => d.incomeTax
  | DocSlot.bankStatements => d.bankStatements
  | DocSlot.propertyTitle => d.propertyTitle

def Docs.set (d : Docs) (s : DocSlot) (item : DocItem) : Docs :=
  match s with
  | DocSlot.cin => { d with cin := item }
  | DocSlot.payslip => { d with payslip := item }
  | DocSlot.incomeTax => { d with incomeTax := item }
  | DocSlot.bankStatements => { d with bankStatements := item }
  | DocSlot.propertyTitle => { d with propertyTitle := item }

/-- The initial `docs` state of `DataIntakeForm`. -/
def initialDocs : Docs :=
  { cin := { id := "cin", label := "CIN Scanned Copy", desc := "بطاقة تعريف وطنية",
             status := DocStatus.idle, error := none }
    payslip := { id := "payslip", label := "Recent Payslip", desc := "قسيمة الراتب",
                 status := DocStatus.idle, error := none }
    incomeTax := { id := "incomeTax", label := "Tax Declaration", desc := "تصريح بالدخل",
                   status := DocStatus.idle, error := none }
    bankStatements := { id := "bankStatements", label := "6 Mo Bank Statements", desc := "كشف بنكي",
                        status := DocStatus.idle, error := none }
    propertyTitle := { id := "propertyTitle", label := "Property Certificate", desc := "شهادة ملكية",
                       status := DocStatus.idle, error := none } }

def taxRejectError : String :=
  "Document illegible or stamp missing. Please provide a certified copy with visible fiscal stamps."

/-- The synchronous part of `handleFileChange`: the slot is set to
`processing`. -/
def handleFileChange (d : Docs) (s : DocSlot) : Docs :=
  d.set s { d.get s with status := DocStatus.processing }

/-- The `setTimeout` callback inside `handleFileChange`: after the simulated
verification delay the slot is set to its final status, which is decided by
`const isTax = id === incomeTax` alone. -/
def fileChangeTimeout (d : Docs) (s : DocSlot) : Docs :=
  let isTax := s.key == "incomeTax"
  d.set s
    { d.get s with
        status := if isTax then DocStatus.rejected else DocStatus.success
        error := if isTax then some taxRejectError else none }

/-- The file input wiring `onChange={() => handleFileChange(doc.id)}`: the
change event, and with it the chosen file, is discarded; only the slot id
reaches the handler. -/
def onUploadChange (d : Docs) (s : DocSlot) (file : String) : Docs :=
  handleFileChange d s

/-- One complete upload interaction on a slot: the change handler followed
by its timeout callback. -/
def uploadFile (d : Docs) (s : DocSlot) (file : String) : Docs :=
  fileChangeTimeout (onUploadChange d s file) s

/-- The events that mutate the `docs` state of the intake form. -/
inductive IntakeEvent
  | fileChange (s : DocSlot) (file : String)
  | fileTimeout (s : DocSlot)

def applyIntakeEvent (d : Docs) (e : IntakeEvent) : Docs :=
  match e with
  | IntakeEvent.fileChange s file => onUploadChange d s file
  | IntakeEvent.fileTimeout s => fileChangeTimeout d s

def runIntake (events : List IntakeEvent) : Docs := events.foldl applyIntakeEvent initialDocs

/-- The `documents` record built by `handleSubmit`:
`Object.keys(docs).reduce((acc, key) => ({...acc, [key]: docs[key].status === "success"}), {})`. -/
def documentsOf (d : Docs) : Documents :=
  { cin := decide (d.cin.status = DocStatus.success)
    payslip := decide (d.payslip.status = DocStatus.success)
    incomeTax := decide (d.incomeTax.status = DocStatus.success)
    bankStatements := decide (d.bankStatements.status = DocStatus.success)
    propertyTitle := decide (d.propertyTitle.status = DocStatus.success) }

/-! ## Verification engine (backend)

The Python backend (`documents_verification.py` with `IDCardVerifier`,
`LoanUnderwriter` and `CrossValidationEngine`) is not part of the
repository snapshot; only its readme and endpoint documentation are.  The
definitions below are therefore modelled from the spec, as their doc
comments state. -/

structure AuthenticityResult where
  score : Rat
  passed : Bool
deriving DecidableEq, Repr

/-- Modelled from the spec: the fixed authenticity threshold 0.80
(`documents_verification/readme.md`, spec section 4.1). -/
def authenticityThreshold : Rat := 4/5

/-- Modelled from the spec: the `IDCardVerifier` result for an averaged
similarity score, `passed := score >= 0.80` with an inclusive boundary;
the Python implementation is not under the snapshot. -/
def mkAuthenticityResult (score : Rat) : AuthenticityResult :=
  { score := score, passed := decide (authenticityThreshold ≤ score) }

/-- Modelled from the spec: `IDCardVerifier.verify`.  `neighbors` is the
outcome of the similarity-index query: `none` when the index is unreachable
or returns malformed output, `some []` when the index is configured empty,
`some scores` the similarity scores of the top-K neighbors.  In the absence
of evidence the verifier fails closed with `passed := false` and
`score := 0`. -/
def verify (neighbors : Option (List Rat)) : AuthenticityResult :=
  match neighbors with
  | none => { score := 0, passed := false }
  | some [] => { score := 0, passed := false }
  | some scores => mkAuthenticityResult ((scores.foldl (· + ·) 0) / (scores.length : Rat))

/-- Modelled from the spec: an `EmbeddingError` (first attempt `none`) is
retried exactly once with backoff; a failure of the retry as well falls
through to the fail-closed result. -/
def verifyWithRetry (first second : Option (List Rat)) : AuthenticityResult :=
  match first with
  | some scores => verify (some scores)
  | none => verify second

inductive IssueKind
  | NameMismatch
  | IncomeInconsistency
  | LowAuthenticity
  | StaleDocument
  | MissingAnchor
deriving DecidableEq, Repr

inductive Severity
  | Minor
  | Major
  | Critical
deriving DecidableEq, Repr

structure Issue where
  kind : IssueKind
  severity : Severity
  detail : String
deriving DecidableEq, Repr

/-- Modelled from the spec: the anchors of one extracted claim record that
the cross-validation engine consults. -/
structure ClaimRecord where
  docType : String
  name : Option String
  income : Option Rat
  isValid : Bool
deriving DecidableEq, Repr

def lowAuthenticityIssue : Issue :=
  { kind := IssueKind.LowAuthenticity
    severity := Severity.Critical
    detail := "visual authenticity below threshold" }

/-- Modelled from the spec: a name pair matches at similarity at least
0.85; below that a `NameMismatch` at `Major`, below 0.60 at `Critical`. -/
def namePairIssues (similarity : Rat) (detail : String) : List Issue :=
  if (17 : Rat)/20 ≤ similarity then []
  else if (3 : Rat)/5 ≤ similarity then
    [{ kind := IssueKind.NameMismatch, severity := Severity.Major, detail := detail }]
  else
    [{ kind := IssueKind.NameMismatch, severity := Severity.Critical, detail := detail }]

/-- Modelled from the spec: the identity name anchor compared against the
name anchor of every other record, under a similarity metric `sim`. -/
def nameIssues (sim : String → String → Rat) (records : List ClaimRecord) : List Issue :=
  match (records.find? (fun r => r.docType == "identity")).bind (fun r => r.name) with
  | none => []
  | some idName =>
      (records.filter (fun r => r.docType != "identity")).foldr
        (fun r acc =>
          (match r.name with
           | none => []
           | some n => namePairIssues (sim idName n) n) ++ acc) []

/-- Modelled from the spec: salary income against tax-declaration income,
relative deviation beyond 25 percent is an `IncomeInconsistency` at
`Major`; a missing side is a `MissingAnchor` at `Minor`. -/
def incomeIssues (records : List ClaimRecord) : List Issue :=
  let sal := (records.find? (fun r => r.docType == "salary")).bind (fun r => r.income)
  let tax := (records.find? (fun r => r.docType == "tax")).bind (fun r => r.income)
  match sal, tax with
  | some a, some b =>
      if |b| / 4 < |a - b| then
        [{ kind := IssueKind.IncomeInconsistency, severity := Severity.Major,
           detail := "income deviation above tolerance" }]
      else []
  | _, _ =>
      [{ kind := IssueKind.MissingAnchor, severity := Severity.Minor,
         detail := "income anchor missing" }]

/-- Modelled from the spec: a record whose self-reported validity is false
yields a `StaleDocument` issue, `Critical` for the identity document and
`Major` otherwise. -/
def validityIssues (records : List ClaimRecord) : List Issue :=
  records.foldr
    (fun r acc =>
      (if r.isValid then []
       else
         [{ kind := IssueKind.StaleDocument,
            severity := if r.docType == "identity" then Severity.Critical else Severity.Major,
            detail := r.docType }]) ++ acc) []

/-- Modelled from the spec: `CrossValidationEngine.crossValidate`.  The
authenticity gate short-circuits: a failed visual check yields exactly the
single `LowAuthenticity` issue and skips the extraction-dependent
comparisons. -/
def crossValidate (sim : String → String → Rat) (records : List ClaimRecord)
    (authenticity : AuthenticityResult) : List Issue :=
  if authenticity.passed then
    nameIssues sim records ++ incomeIssues records ++ validityIssues records
  else
    [lowAuthenticityIssue]

structure DecisionReport where
  finalDecision : String
  overallFraudFlag : Bool
  identityScore : Rat
  issues : List Issue
deriving DecidableEq, Repr

/-- Modelled from the spec: the Decision Synthesizer decision table,
first match wins. -/
def synthesize (issues : List Issue) (authenticity : AuthenticityResult) : DecisionReport :=
  if issues.any (fun i => i.severity == Severity.Critical) then
    { finalDecision := "Rejected", overallFraudFlag := true,
      identityScore := authenticity.score, issues := issues }
  else if issues.any (fun i => i.severity == Severity.Major) then
    { finalDecision := "Flagged", overallFraudFlag := false,
      identityScore := authenticity.score, issues := issues }
  else
    { finalDecision := "Verified", overallFraudFlag := false,
      identityScore := authenticity.score, issues := issues }

/-! ## Concrete sample data -/

def sampleApplicant : Applicant :=
  { fullName := "Mohamed Ben Ali", cinId := "00000000", monthlyIncome := 2500, hasProperty := true }

def sampleLoan : Loan :=
  { purpose := "Personal Loan", amount := 50000, durationMonths := 12 }

def sampleDocuments : Documents :=
  { cin := true, payslip := true, incomeTax := false, bankStatements := true, propertyTitle := true }

def sampleApp : LoanApplication :=
  { id := "A1", applicant := sampleApplicant, loan := sampleLoan, documents := sampleDocuments,
    analysis := initialAnalysis, createdAt := "2026-01-01" }

def sampleIntake : IntakeData :=
  { applicant := sampleApplicant, loan := sampleLoan, documents := sampleDocuments }

def sampleIntakeEvent : AppEvent :=
  AppEvent.intakeComplete sampleIntake "APP1" "2026-01-01"

/-- A well-formed service response that approves the applicant. -/
def approvedResponse : LLMResponse :=
  { status := some "APPROVED", riskScore := some 10, fraudProbability := some 1,
    explanation := some "Solid profile.", possibleImprovements := some [] }

/-- The same response text except that the service settled on `FRAUD`. -/
def fraudResponse : LLMResponse :=
  { approvedResponse with status := some "FRAUD" }

/-- The parse of the substituted text `"{}"`: every field missing. -/
def emptyResponse : LLMResponse :=
  { status := none, riskScore := none, fraudProbability := none,
    explanation := none, possibleImprovements := none }

/-- The result the `try` branch builds for `approvedResponse`. -/
def approvedResult : AnalysisResult :=
  { explanation := "Solid profile.", status := "APPROVED", riskScore := 10,
    fraudProbability := 1, possibleImprovements := [] }

/-- The result the `catch` branch of `getLoanDecisionAnalysis` resolves
with. -/
def errorFallbackResult : AnalysisResult :=
  { explanation := errorExplanation, status := DecisionResult.REJECTED, riskScore := 99,
    fraudProbability := 0, possibleImprovements := errorImprovements }

/-- The result built for a response missing every schema field. -/
def defaultedResult : AnalysisResult :=
  { explanation := defaultExplanation, status := DecisionResult.REJECTED, riskScore := 50,
    fraudProbability := 5, possibleImprovements := [] }

/-! ## Claim theorems -/

/-- Claim C1, counterexample: the final decision is not computed
independently of the external reasoning service.  Two service outputs for
the same application, identical except for the verdict the service chose
inside its text, produce different `status` fields ("APPROVED" versus
"FRAUD"): the LLM response makes the decision. -/
theorem c1_counterexample :
    (getLoanDecisionAnalysis sampleApp (Except.ok approvedResponse) =
      Except.ok approvedResult) ∧
    (getLoanDecisionAnalysis sampleApp (Except.ok fraudResponse) =
      Except.ok { approvedResult with status := "FRAUD" }) ∧
    approvedResult.status ≠ "FRAUD" :=
  ⟨rfl, rfl, by decide⟩

/-- Claim C1, amended: the verdict is produced by the same external LLM
call that produces the narrative; only with the structured fields held
fixed does changing the narrative text alone leave `status`, `riskScore`
and `fraudProbability` unchanged. -/
theorem c1_explanation_noninterference (app : LoanApplication) (data : LLMResponse)
    (e : Option String) :
    (getLoanDecisionAnalysis app (Except.ok { data with explanation := e })).map
        AnalysisResult.status =
      (getLoanDecisionAnalysis app (Except.ok data)).map AnalysisResult.status ∧
    (getLoanDecisionAnalysis app (Except.ok { data with explanation := e })).map
        AnalysisResult.riskScore =
      (getLoanDecisionAnalysis app (Except.ok data)).map AnalysisResult.riskScore ∧
    (getLoanDecisionAnalysis app (Except.ok { data with explanation := e })).map
        AnalysisResult.fraudProbability =
      (getLoanDecisionAnalysis app (Except.ok data)).map AnalysisResult.fraudProbability :=
  ⟨rfl, rfl, rfl⟩

/-- Claim C2, counterexample: the verdict vocabulary of the code is not
Verified/Flagged/Rejected; a service response that approves yields the
final decision "APPROVED", which is none of the three claimed verdicts. -/
theorem c2_counterexample :
    (getLoanDecisionAnalysis sampleApp (Except.ok approvedResponse)).map
        AnalysisResult.status = Except.ok "APPROVED" ∧
    "APPROVED" ≠ "Verified" ∧ "APPROVED" ≠ "Flagged" ∧ "APPROVED" ≠ "Rejected" :=
  ⟨rfl, by decide, by decide, by decide⟩

/-- Claim C2, amended: whenever the service status field is missing, empty,
or one of the declared enum values APPROVED/REJECTED/FRAUD, the final
decision is exactly one of APPROVED, REJECTED, FRAUD (never PENDING), and
the upward caller stores it verbatim into the application record without
reinterpretation. -/
theorem c2_amended (app app2 : LoanApplication) (data : LLMResponse) (result : AnalysisResult)
    (hstatus : data.status = none ∨ data.status = some "" ∨
      data.status = some DecisionResult.APPROVED ∨
      data.status = some DecisionResult.REJECTED ∨
      data.status = some DecisionResult.FRAUD)
    (hres : getLoanDecisionAnalysis app (Except.ok data) = Except.ok result) :
    (result.status = DecisionResult.APPROVED ∨ result.status = DecisionResult.REJECTED ∨
      result.status = DecisionResult.FRAUD) ∧
    (applyAnalysis app2 result).analysis.status = result.status := by
  have hinj : result.status =
      (match data.status with
       | some s => if s = "" then DecisionResult.REJECTED else s
       | none => DecisionResult.REJECTED) := by
    have := hres.symm.trans rfl
    cases this
    rfl
  constructor
  · rcases hstatus with h | h | h | h | h <;>
      simp [hinj, h, DecisionResult.APPROVED, DecisionResult.REJECTED, DecisionResult.FRAUD]
  · rfl

/-- Claim C2, witness for the amended theorem at the concrete approving
response. -/
theorem c2_amended_witness :
    (approvedResult.status = DecisionResult.APPROVED ∨
      approvedResult.status = DecisionResult.REJECTED ∨
      approvedResult.status = DecisionResult.FRAUD) ∧
    (applyAnalysis sampleApp approvedResult).analysis.status = approvedResult.status :=
  c2_amended sampleApp sampleApp approvedResponse approvedResult
    (Or.inr (Or.inr (Or.inl rfl))) rfl

/-- Claim C3, counterexample: a service response missing every required
field of the declared schema is not rejected; the operation succeeds and
silently substitutes defaults (status REJECTED, riskScore 50,
fraudProbability 5, a canned narrative, empty improvements). -/
theorem c3_counterexample :
    getLoanDecisionAnalysis sampleApp (Except.ok emptyResponse) = Except.ok defaultedResult :=
  rfl

/-- Claim C3, amended: a parsed response missing required fields does not
make the extraction fail; every missing field is replaced by a fixed
default value. -/
theorem c3_amended (app : LoanApplication) (data : LLMResponse)
    (h1 : data.status = none) (h2 : data.riskScore = none) (h3 : data.fraudProbability = none)
    (h4 : data.explanation = none) (h5 : data.possibleImprovements = none) :
    getLoanDecisionAnalysis app (Except.ok data) = Except.ok defaultedResult := by
  simp [getLoanDecisionAnalysis, h1, h2, h3, h4, h5, defaultedResult]

/-- Claim C3, witness for the amended theorem at the all-missing
response. -/
theorem c3_amended_witness :
    getLoanDecisionAnalysis sampleApp (Except.ok emptyResponse) = Except.ok defaultedResult :=
  c3_amended sampleApp emptyResponse rfl rfl rfl rfl rfl

/-- Claim C4: when the visual authenticity check failed, cross-validation
produces exactly the single `LowAuthenticity` issue at `Critical`, the
synthesized decision is Rejected, and no `NameMismatch` or
`IncomeInconsistency` issue appears in the report. -/
theorem c4_short_circuit (sim : String → String → Rat) (records : List ClaimRecord)
    (authenticity : AuthenticityResult) (h : authenticity.passed = false) :
    crossValidate sim records authenticity = [lowAuthenticityIssue] ∧
    lowAuthenticityIssue.kind = IssueKind.LowAuthenticity ∧
    lowAuthenticityIssue.severity = Severity.Critical ∧
    (synthesize (crossValidate sim records authenticity) authenticity).finalDecision =
      "Rejected" ∧
    ((crossValidate sim records authenticity).all
      (fun i => !(i.kind == IssueKind.NameMismatch) &&
        !(i.kind == IssueKind.IncomeInconsistency))) = true := by
  have hcv : crossValidate sim records authenticity = [lowAuthenticityIssue] := by
    simp [crossValidate, h]
  refine ⟨hcv, rfl, rfl, ?_, ?_⟩
  · rw [hcv]; rfl
  · rw [hcv]; rfl

/-- Claim C4, witness: a score of 0.64 fails the visual check and the
short-circuit fires. -/
theorem c4_short_circuit_witness :
    crossValidate (fun _ _ => 1) [] (mkAuthenticityResult (16/25)) = [lowAuthenticityIssue] ∧
    lowAuthenticityIssue.kind = IssueKind.LowAuthenticity ∧
    lowAuthenticityIssue.severity = Severity.Critical ∧
    (synthesize (crossValidate (fun _ _ => 1) [] (mkAuthenticityResult (16/25)))
      (mkAuthenticityResult (16/25))).finalDecision = "Rejected" ∧
    ((crossValidate (fun _ _ => 1) [] (mkAuthenticityResult (16/25))).all
      (fun i => !(i.kind == IssueKind.NameMismatch) &&
        !(i.kind == IssueKind.IncomeInconsistency))) = true :=
  c4_short_circuit (fun _ _ => 1) [] (mkAuthenticityResult (16/25))
    (by norm_num [mkAuthenticityResult, authenticityThreshold])

/-- Claim C5: for every authenticity score the passed flag equals
`score >= 0.80`, and the boundary score 0.80 itself passes. -/
theorem c5_threshold_boundary (s : Rat) :
    ((mkAuthenticityResult s).passed = true ↔ authenticityThreshold ≤ s) ∧
    (mkAuthenticityResult authenticityThreshold).passed = true := by
  constructor
  · simp [mkAuthenticityResult]
  · simp [mkAuthenticityResult]

/-- Claim C6: the verifier fails closed on an unreachable or malformed
similarity dependency and on an empty index (`passed = false`,
`score = 0`), and the decision-analysis call likewise resolves every
dependency failure into the rejecting fallback, never an approval. -/
theorem c6_fail_closed (app : LoanApplication) :
    verify none = { score := 0, passed := false } ∧
    verify (some []) = { score := 0, passed := false } ∧
    (verify none).passed ≠ true ∧
    getLoanDecisionAnalysis app (Except.error ()) = Except.ok errorFallbackResult ∧
    errorFallbackResult.status = DecisionResult.REJECTED ∧
    errorFallbackResult.status ≠ DecisionResult.APPROVED :=
  ⟨rfl, rfl, by decide, rfl, rfl, by decide⟩

/-- Claim C7, counterexample: an infrastructure-level failure of the
external call does not propagate to the caller as a failure; the concrete
failing input `Except.error ()` is resolved into an ordinary decision
result whose status is REJECTED. -/
theorem c7_counterexample :
    getLoanDecisionAnalysis sampleApp (Except.error ()) = Except.ok errorFallbackResult ∧
    errorFallbackResult.status = DecisionResult.REJECTED :=
  ⟨rfl, rfl⟩

/-- Claim C7, amended: the similarity dependency is retried exactly once
on an `EmbeddingError` and fails closed if the retry fails too (modelled
from the spec); the decision-analysis service, however, never propagates a
failure to its caller — every outcome, including a persisting
infrastructure failure, is resolved into a decision result, the error path
yielding the REJECTED fallback. -/
theorem c7_retry_and_no_propagation (second : Option (List Rat)) (app : LoanApplication)
    (resp : Except Unit LLMResponse) :
    verifyWithRetry none second = verify second ∧
    verifyWithRetry none none = { score := 0, passed := false } ∧
    (getLoanDecisionAnalysis app resp).isOk = true ∧
    getLoanDecisionAnalysis app (Except.error ()) = Except.ok errorFallbackResult := by
  refine ⟨rfl, rfl, ?_, rfl⟩
  cases resp <;> rfl

/-- Claim C8: completing the analysis stage builds a fresh application
record via `applyAnalysis`; its id equals the old id and the applicant,
loan, documents and creation timestamp are carried over unchanged — only
the analysis sub-record differs.  The state transition of
`handleAnalysisComplete` stores exactly that new instance. -/
theorem c8_reevaluation_frame (app : LoanApplication) (result : AnalysisResult) :
    (applyAnalysis app result).id = app.id ∧
    (applyAnalysis app result).applicant = app.applicant ∧
    (applyAnalysis app result).loan = app.loan ∧
    (applyAnalysis app result).documents = app.documents ∧
    (applyAnalysis app result).createdAt = app.createdAt ∧
    handleAnalysisComplete { step := LoanStep.ANALYSIS, application := some app }
        (Except.ok result) =
      { step := LoanStep.DECISION, application := some (applyAnalysis app result) } :=
  ⟨rfl, rfl, rfl, rfl, rfl, rfl⟩

/-- Helper: every update of the intake `docs` state leaves the
tax-declaration slot in a non-`success` status. -/
theorem applyIntakeEvent_incomeTax_ne_success (d : Docs) (e : IntakeEvent)
    (h : d.incomeTax.status ≠ DocStatus.success) :
    (applyIntakeEvent d e).incomeTax.status ≠ DocStatus.success := by
  cases e with
  | fileChange s file =>
      cases s <;>
        simp_all [applyIntakeEvent, onUploadChange, handleFileChange, Docs.set, Docs.get]
  | fileTimeout s =>
      cases s <;>
        simp_all [applyIntakeEvent, fileChangeTimeout, Docs.set, Docs.get, DocSlot.key]

/-- Helper: in every reachable intake form state the tax-declaration slot
has never been extracted successfully. -/
theorem runIntake_incomeTax_ne_success (events : List IntakeEvent) :
    (runIntake events).incomeTax.status ≠ DocStatus.success := by
  have main : ∀ (es : List IntakeEvent) (d : Docs), d.incomeTax.status ≠ DocStatus.success →
      (es.foldl applyIntakeEvent d).incomeTax.status ≠ DocStatus.success := by
    intro es
    induction es with
    | nil => intro d h; exact h
    | cons e rest ih =>
        intro d h
        exact ih (applyIntakeEvent d e) (applyIntakeEvent_incomeTax_ne_success d e h)
  exact main events initialDocs (by simp [initialDocs])

/-- Claim C9: the verification status of an uploaded document depends only
on the slot id, never on the uploaded file content (the change handler
discards the file); the tax-declaration slot is always rejected with a
fixed error message while every other slot always succeeds; consequently
every application submitted by the form carries
`documents.incomeTax = false`. -/
theorem c9_content_independent_intake :
    (∀ (d : Docs) (s : DocSlot) (c1 c2 : String), onUploadChange d s c1 = onUploadChange d s c2) ∧
    (∀ (d : Docs) (s : DocSlot) (c1 c2 : String), uploadFile d s c1 = uploadFile d s c2) ∧
    (∀ (d : Docs) (s : DocSlot) (c : String),
      ((uploadFile d s c).get s).status =
        (if s = DocSlot.incomeTax then DocStatus.rejected else DocStatus.success)) ∧
    (∀ (d : Docs) (s : DocSlot) (c : String),
      ((uploadFile d s c).get s).error =
        (if s = DocSlot.incomeTax then some taxRejectError else none)) ∧
    (∀ events : List IntakeEvent, (documentsOf (runIntake events)).incomeTax = false) := by
  refine ⟨fun d s c1 c2 => rfl, fun d s c1 c2 => rfl, ?_, ?_, ?_⟩
  · intro d s c; cases s <;> rfl
  · intro d s c; cases s <;> rfl
  · intro events
    have h := runIntake_incomeTax_ne_success events
    simp [documentsOf, h]

/-- Helper: in every reachable `App` state, being in the analysis step
implies an application record exists (the only transition into `ANALYSIS`
is `handleIntakeComplete`, which stores one). -/
theorem runApp_analysis_has_application (events : List AppEvent) :
    (runApp events).step = LoanStep.ANALYSIS → (runApp events).application.isSome = true := by
  have main : ∀ (es : List AppEvent) (st : AppState),
      (st.step = LoanStep.ANALYSIS → st.application.isSome = true) →
      ((es.foldl appStep st).step = LoanStep.ANALYSIS →
        (es.foldl appStep st).application.isSome = true) := by
    intro es
    induction es with
    | nil => intro st h; exact h
    | cons e rest ih =>
        intro st h
        apply ih
        cases e with
        | intakeComplete data newId createdAt =>
            intro _; rfl
        | analysisComplete outcome =>
            rcases hopt : st.application with _ | app
            · intro hstep
              have : appStep st (AppEvent.analysisComplete outcome) = st := by
                simp [appStep, handleAnalysisComplete, hopt]
              rw [this] at hstep ⊢
              exact h hstep
            · intro hstep
              exfalso
              cases outcome <;>
                simp [appStep, handleAnalysisComplete, hopt] at hstep
        | reset =>
            intro hstep
            exfalso
            simp [appStep, resetFlow, initAppState] at hstep
  exact main events initAppState (by intro h; simp [initAppState] at h)

/-- Claim C10: from every reachable state in the `ANALYSIS` step,
`handleAnalysisComplete` moves the pipeline to `DECISION` whatever the
outcome of the external decision-analysis call (its `catch` path sets the
step exactly as its `try` path does), and the analysis service itself
never propagates an exception — it resolves every dependency outcome into
an ordinary result. -/
theorem c10_analysis_always_reaches_decision (events : List AppEvent)
    (outcome : Except Unit AnalysisResult) (app : LoanApplication)
    (resp : Except Unit LLMResponse)
    (h : (runApp events).step = LoanStep.ANALYSIS) :
    (handleAnalysisComplete (runApp events) outcome).step = LoanStep.DECISION ∧
    (getLoanDecisionAnalysis app resp).isOk = true := by
  constructor
  · have hsome := runApp_analysis_has_application events h
    rcases hopt : (runApp events).application with _ | a
    · rw [hopt] at hsome; simp at hsome
    · cases outcome <;> simp [handleAnalysisComplete, hopt]
  · cases resp <;> rfl

/-- Claim C10, witness: after a concrete intake the state is in
`ANALYSIS`, and a failing analysis call still lands in `DECISION`. -/
theorem c10_witness :
    (handleAnalysisComplete (runApp [sampleIntakeEvent]) (Except.error ())).step =
      LoanStep.DECISION ∧
    (getLoanDecisionAnalysis sampleApp (Except.error ())).isOk = true :=
  c10_analysis_always_reaches_decision [sampleIntakeEvent] (Except.error ()) sampleApp
    (Except.error ()) rfl

end TrustLend
